import Mathlib

/-!
Verification of `export_from_Slicer.py`.

A shallow embedding of the batch segmentation-to-mesh export script.  The
script runs inside the 3D Slicer application; all of its substantive work
(volume loading, closed-surface generation, mesh writing) is delegated to the
host engine.  We model the engine's per-case behaviour as opaque data
(`SegEngine`) and embed the script's own control flow and data flow faithfully:
the per-patient exporter `export_segmentation`, the directory helper
`create_directory`, and the batch driver `main`.

Filesystem paths are modelled as lists of components; the engine-side
behaviour of one case (whether closed-surface generation succeeds, how many
segments exist, which segments yield a retrievable closed surface, and the
engine-assigned segment ids) is a `SegEngine`.  Side effects (records appended
to the summary artifact, writer `Write()` calls, exporter invocations,
directory creation) are collected in explicit traces.
-/

namespace SlicerExport

/-- A filesystem path, as a list of components (`Path` in the source). -/
abbrev Path := List String

/-- The final component of a path, i.e. `path.name` (empty for the root). -/
def pathName (p : Path) : String := p.getLast?.getD ""

/-- Rendering of a path as a string, `str(path)` on a POSIX system: components joined by `/`. -/
def pathStr (p : Path) : String := String.intercalate "/" p

/-- Python's `str.lower()` (character-wise lowercasing; the format strings the
script deals in are ASCII). -/
def strLower (s : String) : String := ⟨s.data.map Char.toLower⟩

/-- Lexicographic comparison of character sequences by code point, Python's
ordering on `str`. -/
def charListLe : List Char → List Char → Bool
  | [], _ => true
  | _ :: _, [] => false
  | a :: as, b :: bs =>
    if a.toNat < b.toNat then true
    else if b.toNat < a.toNat then false
    else charListLe as bs

/-- Comparison `a <= b` on Python strings. -/
def strLe (a b : String) : Bool := charListLe a.data b.data

/-- Python's `sorted(...)` on a list of strings: the stable lexicographic
sort (modelled by insertion sort, which is stable). -/
def pySorted (l : List String) : List String :=
  List.insertionSort (fun a b => strLe a b = true) l

/-- The name of the grandparent directory of a file path, `file_path.parents[1].name`
(for
`data_path/<pid>/segmentations/<label>.nii.gz` this is `<pid>`, the case
folder name used to name the loaded segmentation node). -/
def parents1Name (p : Path) : String := pathName p.dropLast.dropLast

/-- The four VTK writer/exporter objects `main` can construct
(`vtk.vtkOBJExporter()`, `vtk.vtkSTLWriter()`, `vtk.vtkPLYWriter()`,
`vtk.vtkGLTFExporter()`). -/
inductive Writer
  | vtkOBJExporter
  | vtkSTLWriter
  | vtkPLYWriter
  | vtkGLTFExporter
deriving DecidableEq, Repr

/-- A Python exception escaping the script's own code.
`valueError msg` models `raise ValueError(msg)`; `nameError n` models the
`NameError` Python raises when evaluating an f-string that references the
unbound name `n`. -/
inductive PyErr
  | valueError (msg : String)
  | nameError (missingName : String)
deriving DecidableEq, Repr

deriving instance DecidableEq for Except

/-- The engine-side behaviour of one segmentation file, i.e. what the host
application (3D Slicer) and VTK do when the script loads and queries it.
These are opaque external capabilities, so they are data of the model:
* `createClosedSurfaceOK` — result of
  `segmentationNode.CreateClosedSurfaceRepresentation()`;
* `nSegments` — `segmentation.GetNumberOfSegments()`;
* `nthSegmentID i` — `segmentation.GetNthSegmentID(i)`;
* `getClosedSurfaceOK i` — result of
  `segmentationNode.GetClosedSurfaceRepresentation(segmentID_i, polydata)`. -/
structure SegEngine where
  createClosedSurfaceOK : Bool
  nSegments : Nat
  nthSegmentID : Nat → String
  getClosedSurfaceOK : Nat → Bool

/-- The exception the unsupported-writer `else` branch of the per-segment
dispatch raises.  The `else` branch in the source is
`raise ValueError(f"Export type {export_type} is not supported")`, but
`export_type` is not a parameter or local of `export_segmentation`: Python
resolves it in the module's global scope.  `globalExportType` is that global
(`some s` when the `__main__` block has bound it, `none` when `main` is
invoked without it, e.g. from another module); with no global bound the
f-string itself raises `NameError` before any `ValueError` is constructed. -/
def gltfRaise (globalExportType : Option String) : PyErr :=
  match globalExportType with
  | some g => PyErr.valueError ("Export type " ++ g ++ " is not supported")
  | none => PyErr.nameError "export_type"

/-- One per-segment iteration of the loop of `export_segmentation` at segment
index `i`: `ok none` means the segment was skipped (`continue`, no closed
surface retrievable); `ok (some f)` means the writer target was set to `f`
and `writer.Write()` was invoked (for STL/PLY `f` is the full file name, for
OBJ the file stem of the `.obj`+`.mtl` bundle); `error e` means the `else`
branch of the dispatch raised (see `gltfRaise`). -/
def exportSegStep (globalExportType : Option String) (writer : Writer)
    (eng : SegEngine) (nodeName : String) (save_path : Path) (i : Nat) :
    Except PyErr (Option String) :=
  let segmentID := eng.nthSegmentID i
  if eng.getClosedSurfaceOK i = false then
    Except.ok none
  else
    match writer with
    | Writer.vtkSTLWriter =>
        Except.ok (some (pathStr (save_path ++ [nodeName]) ++ "_" ++ segmentID ++ ".stl"))
    | Writer.vtkOBJExporter =>
        Except.ok (some (pathStr (save_path ++ [nodeName]) ++ "_" ++ segmentID))
    | Writer.vtkPLYWriter =>
        Except.ok (some (pathStr (save_path ++ [nodeName]) ++ "_" ++ segmentID ++ ".ply"))
    | Writer.vtkGLTFExporter => Except.error (gltfRaise globalExportType)

/-- Accumulated outcome of the first `k` iterations of the per-segment loop:
a raised exception (if any — it aborts the loop) and the writer targets
written so far, in order. -/
structure LoopOut where
  err : Option PyErr
  writes : List String
deriving DecidableEq, Repr

/-- The per-segment loop of `export_segmentation`, run over segment indices
`0, 1, …, k-1` (the source's `for segmentIndex in range(n_segments)`). -/
def exportLoop (globalExportType : Option String) (writer : Writer)
    (eng : SegEngine) (nodeName : String) (save_path : Path) : Nat → LoopOut
  | 0 => ⟨none, []⟩
  | k + 1 =>
    let prev := exportLoop globalExportType writer eng nodeName save_path k
    match prev.err with
    | some _ => prev
    | none =>
      match exportSegStep globalExportType writer eng nodeName save_path k with
      | Except.ok none => prev
      | Except.ok (some f) => ⟨none, prev.writes ++ [f]⟩
      | Except.error e => ⟨some e, prev.writes⟩

/-- Result of one `export_segmentation` call: the returned status (or the
exception it raised), the writer targets written (each one `writer.Write()`
call: one mesh file for STL/PLY, one `.obj`+`.mtl` bundle for OBJ), and
whether the shared 3D-view decorations were switched off (the view-node side
effect performed for scene-renderer exporters). -/
structure ExportResult where
  result : Except PyErr Int
  writes : List String
  viewTweaked : Bool
deriving DecidableEq, Repr

/-- Shallow embedding of `export_segmentation(file_path, save_path, writer)`.

Mirrors the source: load the segmentation node named after
`file_path.parents[1].name`; request closed-surface representation, returning
`-1` on failure; count segments, returning `0` when there are none; for
scene-renderer exporters (OBJ/GLTF) switch off the view decorations; then loop
over the segments dispatching on the writer's runtime type, and return the
segment count. -/
def export_segmentation (globalExportType : Option String) (file_path : Path)
    (save_path : Path) (writer : Writer) (eng : SegEngine) : ExportResult :=
  let nodeName := parents1Name file_path
  if eng.createClosedSurfaceOK = false then
    ⟨Except.ok (-1), [], false⟩
  else
    let n := eng.nSegments
    if n = 0 then
      ⟨Except.ok 0, [], false⟩
    else
      let tweak := writer = Writer.vtkOBJExporter ∨ writer = Writer.vtkGLTFExporter
      let lo := exportLoop globalExportType writer eng nodeName save_path n
      match lo.err with
      | some e => ⟨Except.error e, lo.writes, decide tweak⟩
      | none => ⟨Except.ok (n : Int), lo.writes, decide tweak⟩

/-- State of the filesystem node at one path: `none` when nothing exists
there, `some files` when a directory with contents `files` exists there. -/
abbrev DirState := Option (List String)

/-- Model of `shutil.rmtree(path)`: the directory tree at the path is removed. -/
def rmtree (_ : DirState) : DirState := none

/-- Model of `path.mkdir(exist_ok=True, parents=True)`: creates an empty directory if
nothing exists at the path; with `exist_ok=True` an existing directory is
left untouched. -/
def mkdirExistOk (st : DirState) : DirState :=
  match st with
  | none => some []
  | some fs => some fs

/-- Shallow embedding of `create_directory(path)`, acting on the state of the
directory at `path`: `if path.exists(): shutil.rmtree(path)` then
`path.mkdir(exist_ok=True, parents=True)`. -/
def create_directory (st : DirState) : DirState :=
  mkdirExistOk (if st.isSome then rmtree st else st)

/-- One record appended to the summary artifact by the batch loop.  The two
sink branches (`use_pandas=True` dataframe rows, `use_pandas=False` log-file
lines) append at exactly the same three points of the loop body; `Entry`
captures the appended event and `pandasRow` / `logLine` below give each
branch's literal content. -/
inductive Entry
  | skipped (pid : String)
  | noSeg (pid : String)
  | exported (pid : String) (status : Int)
deriving DecidableEq, Repr

/-- The patient id an entry is about. -/
def Entry.pid : Entry → String
  | Entry.skipped p => p
  | Entry.noSeg p => p
  | Entry.exported p _ => p

/-- The dataframe row the `use_pandas=True` branch appends for this event:
`[patient_id, -2]` for a skip, `[patient_id, 0]` for a missing segmentation
file, `[patient_id, _status]` after an export call. -/
def pandasRow : Entry → String × Int
  | Entry.skipped p => (p, -2)
  | Entry.noSeg p => (p, 0)
  | Entry.exported p s => (p, s)

/-- The log line the `use_pandas=False` branch writes for this event. -/
def logLine : Entry → String
  | Entry.skipped p => p ++ " is skipped\n"
  | Entry.noSeg p => p ++ " doesn't have segmentation\n"
  | Entry.exported p s => p ++ " exported " ++ toString s ++ " segments\n"

/-- The dataset as the script sees it through the filesystem and the engine:
the immediate subdirectory names of `data_path` (as `iterdir` yields them,
before sorting), whether the expected segmentation file of a case exists, and
the engine's behaviour when that case's file is loaded. -/
structure DatasetEnv where
  dirNames : List String
  segExists : String → Bool
  engine : String → SegEngine

/-- The case ids in discovery (sorted) order:
`sorted([folder.name for folder in data_path.iterdir() if folder.is_dir()])`. -/
def patientIds (env : DatasetEnv) : List String := pySorted env.dirNames

/-- Mutable state threaded through the batch loop: the (shrinking) skip-list,
the summary entries appended so far, the `export_segmentation` invocations so
far (the `seg_path` each was called on), the writer targets written so far,
and the processed-case counter `count`. -/
structure LoopState where
  skip : List String
  entries : List Entry
  invocations : List Path
  writes : List String
  count : Nat
deriving DecidableEq, Repr

/-- How one iteration of the batch loop ends: fall through to the next
patient, leave the loop via the debug `break`, or abort the whole batch with
an uncaught exception from `export_segmentation`. -/
inductive StepOut
  | toNext (st : LoopState)
  | brk (st : LoopState)
  | raised (st : LoopState) (e : PyErr)
deriving DecidableEq, Repr

/-- One iteration of the batch loop body of `main`, for patient `pid`:

* if `pid` is in the skip-list, remove it (`list.remove`: first occurrence),
  record the skip entry and `continue`;
* otherwise build `seg_path`, record a no-segmentation entry when the file is
  missing (without skipping the case), call `export_segmentation` (an
  uncaught exception halts the batch), record the returned status, clear the
  scene, increment `count`, and in debug mode `break` once `count > 10`. -/
def caseStep (globalExportType : Option String) (env : DatasetEnv)
    (data_path save_path : Path) (selected_segment : String) (writer : Writer)
    (debug : Bool) (pid : String) (st : LoopState) : StepOut :=
  if pid ∈ st.skip then
    StepOut.toNext { st with
      skip := st.skip.erase pid
      entries := st.entries ++ [Entry.skipped pid] }
  else
    let seg_path : Path := data_path ++ [pid, "segmentations", selected_segment ++ ".nii.gz"]
    let st1 := { st with
      entries := st.entries ++ (if env.segExists pid then [] else [Entry.noSeg pid]) }
    let res := export_segmentation globalExportType seg_path save_path writer (env.engine pid)
    let st2 := { st1 with
      invocations := st1.invocations ++ [seg_path]
      writes := st1.writes ++ res.writes }
    match res.result with
    | Except.error e => StepOut.raised st2 e
    | Except.ok status =>
      let st3 := { st2 with
        entries := st2.entries ++ [Entry.exported pid status]
        count := st2.count + 1 }
      if debug && decide (st3.count > 10) then StepOut.brk st3 else StepOut.toNext st3

/-- The batch loop `for patient_id in patient_ids: …`, returning the final
state and the uncaught exception, if one aborted the batch. -/
def mainLoop (globalExportType : Option String) (env : DatasetEnv)
    (data_path save_path : Path) (selected_segment : String) (writer : Writer)
    (debug : Bool) : List String → LoopState → LoopState × Option PyErr
  | [], st => (st, none)
  | pid :: rest, st =>
    match caseStep globalExportType env data_path save_path selected_segment writer debug pid st with
    | StepOut.toNext st' =>
        mainLoop globalExportType env data_path save_path selected_segment writer debug rest st'
    | StepOut.brk st' => (st', none)
    | StepOut.raised st' e => (st', some e)

/-- The format dispatch of `main`: lowercase the export-format string and pick the
writer, or fall into the `else: raise ValueError(...)` branch (`none`). -/
def formatWriter (export_type : String) : Option Writer :=
  let t := strLower export_type
  if t = "obj" then some Writer.vtkOBJExporter
  else if t = "stl" then some Writer.vtkSTLWriter
  else if t = "ply" then some Writer.vtkPLYWriter
  else if t = "gltf" then some Writer.vtkGLTFExporter
  else none

/-- Observable outcome of one `main` call: the uncaught exception if one was
raised, the summary entries in append order, the exporter invocations, the
writer targets written, the final `count`, the final state of the (mutated)
skip-list argument, and the destination directory passed to
`create_directory` (`none` when `main` aborted before reaching it — no
filesystem I/O happened in that case, which is also witnessed by the empty
traces). -/
structure MainOut where
  err : Option PyErr
  entries : List Entry
  invocations : List Path
  writes : List String
  count : Nat
  finalSkip : List String
  dirCreated : Option Path
deriving DecidableEq, Repr

/-- Shallow embedding of
`main(data_path, export_path, selected_segment, export_type, skip_image_id,
use_pandas, debug)`.

The format dispatch runs first; an unrecognized format raises before the
destination directory is created, before the summary sink is opened and
before any case is touched.  Otherwise the destination directory
`export_path/<data_path.name>__<selected_segment>__<export_type(lowercased)>`
is created and the batch loop runs over the sorted case ids. -/
def main (globalExportType : Option String) (env : DatasetEnv)
    (data_path export_path : Path) (selected_segment : String)
    (export_type : String) (skip_image_id : List String) (debug : Bool) : MainOut :=
  match formatWriter export_type with
  | none =>
      { err := some (PyErr.valueError
          ("Export type " ++ strLower export_type ++ " is not supported"))
        entries := []
        invocations := []
        writes := []
        count := 0
        finalSkip := skip_image_id
        dirCreated := none }
  | some writer =>
      let save_path : Path :=
        export_path ++ [pathName data_path ++ "__" ++ selected_segment ++ "__" ++ strLower export_type]
      let st0 : LoopState := ⟨skip_image_id, [], [], [], 0⟩
      let out := mainLoop globalExportType env data_path save_path selected_segment writer debug
        (patientIds env) st0
      { err := out.2
        entries := out.1.entries
        invocations := out.1.invocations
        writes := out.1.writes
        count := out.1.count
        finalSkip := out.1.skip
        dirCreated := some save_path }

/-- The status `export_segmentation` returns whenever it returns rather than
raises: `-1` when closed-surface generation fails, otherwise the segment
count (including `0` for an empty segmentation). -/
def engineStatus (eng : SegEngine) : Int :=
  if eng.createClosedSurfaceOK = false then -1 else (eng.nSegments : Int)

/-- The loop state a step carries out, whichever way the step ended. -/
def StepOut.state : StepOut → LoopState
  | StepOut.toNext st => st
  | StepOut.brk st => st
  | StepOut.raised st _ => st

/-- The records one case contributes to the summary artifact, as the amended
C1 claim states them (a spec-side definition, to be compared with the
behaviour of `main`): one skip record for a case in the skip-list; one
export-status record for a case whose segmentation file exists; a
missing-note record followed by an export-status record for a case whose
segmentation file is missing. -/
def caseRecordsSpec (env : DatasetEnv) (skip0 : List String)
    (statusOf : String → Int) (pid : String) : List Entry :=
  if pid ∈ skip0 then [Entry.skipped pid]
  else if env.segExists pid then [Entry.exported pid (statusOf pid)]
  else [Entry.noSeg pid, Entry.exported pid (statusOf pid)]

/-- An engine on which closed-surface generation fails (as for a file the
host application cannot turn into a 3D-displayable representation). -/
def engNoSurface : SegEngine := ⟨false, 0, fun _ => "", fun _ => false⟩

/-- An engine with one segment whose closed surface is retrievable. -/
def engOneSegment : SegEngine :=
  ⟨true, 1, fun i => "Segment_" ++ toString (i + 1), fun _ => true⟩

/-- An engine with two segments of which only the first yields a retrievable
closed surface (the second is silently skipped by the per-segment loop). -/
def engTwoSegOneGood : SegEngine :=
  ⟨true, 2, fun i => "Segment_" ++ toString (i + 1), fun i => decide (i = 0)⟩

/-- A dataset of one case `s002` whose segmentation file is missing. -/
def envMissing : DatasetEnv := ⟨["s002"], fun _ => false, fun _ => engNoSurface⟩

/-- A dataset of one case `s001` whose segmentation file exists, behaving as
`engTwoSegOneGood`. -/
def envTwoSeg : DatasetEnv := ⟨["s001"], fun _ => true, fun _ => engTwoSegOneGood⟩

/-- A dataset of thirteen cases `s100 … s112`, all loadable, one retrievable
segment each. -/
def envThirteen : DatasetEnv :=
  ⟨(List.range 13).map (fun i => "s" ++ toString (100 + i)),
   fun _ => true, fun _ => engOneSegment⟩

/-- A dataset of two loadable cases `s001`, `s003`, one retrievable segment
each. -/
def envTwoCases : DatasetEnv := ⟨["s001", "s003"], fun _ => true, fun _ => engOneSegment⟩

/-- For the three writer kinds the per-segment dispatch handles, no iteration
of the per-segment loop raises. -/
theorem exportLoop_err_none (gET : Option String) (w : Writer) (eng : SegEngine)
    (nm : String) (sp : Path) (hw : w ≠ Writer.vtkGLTFExporter) :
    ∀ k, (exportLoop gET w eng nm sp k).err = none := by
  intro k
  induction k with
  | zero => rfl
  | succ k ih =>
    simp only [exportLoop]
    rw [ih]
    by_cases h : eng.getClosedSurfaceOK k = false
    · simp [exportSegStep, h, ih]
    · cases w with
      | vtkGLTFExporter => exact absurd rfl hw
      | vtkSTLWriter => simp [exportSegStep, h, ih]
      | vtkOBJExporter => simp [exportSegStep, h, ih]
      | vtkPLYWriter => simp [exportSegStep, h, ih]

/-- For the three handled writer kinds, `export_segmentation` returns
normally, with status `engineStatus`. -/
theorem export_segmentation_result_ok (gET : Option String) (fp sp : Path)
    (w : Writer) (eng : SegEngine) (hw : w ≠ Writer.vtkGLTFExporter) :
    (export_segmentation gET fp sp w eng).result = Except.ok (engineStatus eng) := by
  unfold export_segmentation engineStatus
  by_cases hc : eng.createClosedSurfaceOK = false
  · simp [hc]
  · by_cases hn : eng.nSegments = 0
    · simp [hc, hn]
    · have he := exportLoop_err_none gET w eng (parents1Name fp) sp hw eng.nSegments
      simp [hc, hn, he]

/-- When every segment yields a retrievable closed surface, each of the first
`k` loop iterations performs one write. -/
theorem exportLoop_writes_length (gET : Option String) (w : Writer) (eng : SegEngine)
    (nm : String) (sp : Path) (hw : w ≠ Writer.vtkGLTFExporter) :
    ∀ k, (∀ i, i < k → eng.getClosedSurfaceOK i = true) →
      (exportLoop gET w eng nm sp k).writes.length = k := by
  intro k
  induction k with
  | zero => intro _; rfl
  | succ k ih =>
    intro hs
    have hk : eng.getClosedSurfaceOK k = true := hs k (Nat.lt_succ_self k)
    have ihw := ih (fun i hi => hs i (Nat.lt_succ_of_lt hi))
    simp only [exportLoop]
    rw [exportLoop_err_none gET w eng nm sp hw k]
    cases w with
    | vtkGLTFExporter => exact absurd rfl hw
    | vtkSTLWriter => simp [exportSegStep, hk, ihw]
    | vtkOBJExporter => simp [exportSegStep, hk, ihw]
    | vtkPLYWriter => simp [exportSegStep, hk, ihw]

/-- With the GLTF exporter, the first segment whose closed surface is
retrievable drives the loop into the unsupported-writer `else` branch. -/
theorem exportLoop_gltf_err (gET : Option String) (eng : SegEngine) (nm : String)
    (sp : Path) (hs : eng.getClosedSurfaceOK 0 = true) :
    ∀ k, (exportLoop gET Writer.vtkGLTFExporter eng nm sp (k + 1)).err
        = some (gltfRaise gET) := by
  intro k
  induction k with
  | zero => simp [exportLoop, exportSegStep, hs]
  | succ k ih =>
    rw [exportLoop]
    simp [ih]

/-- C7: for every call to the per-patient exporter, if closed-surface
generation for the loaded segmentation fails, the call returns `-1`
immediately — before counting segments and before any mesh file is written
for that patient (the write trace is empty). -/
theorem export_returns_minus_one_on_failed_surface (gET : Option String)
    (fp sp : Path) (w : Writer) (eng : SegEngine)
    (h : eng.createClosedSurfaceOK = false) :
    export_segmentation gET fp sp w eng = ⟨Except.ok (-1), [], false⟩ := by
  simp [export_segmentation, h]

/-- C7 witness. -/
theorem export_returns_minus_one_on_failed_surface_witness :
    export_segmentation none ["data", "s002", "segmentations", "liver.nii.gz"]
        ["exp", "out"] Writer.vtkSTLWriter engNoSurface
      = ⟨Except.ok (-1), [], false⟩ :=
  export_returns_minus_one_on_failed_surface none
    ["data", "s002", "segmentations", "liver.nii.gz"] ["exp", "out"]
    Writer.vtkSTLWriter engNoSurface (by decide)

/-- C8: `create_directory` removes a pre-existing directory at the
destination path and recreates it: whatever the prior state of that path
(absent, or a prior run's directory with any contents), after the call the
directory exists and is empty — so running the batch twice with the same
parameters fully replaces the destination directory contents. -/
theorem create_directory_replaces (st : DirState) : create_directory st = some [] := by
  cases st <;> rfl

/-- C10 counterexample: the GLTF exporter is one of the writers constructed
by the format dispatch of `main`, and on a segmentation with one retrievable
closed-surface segment it does reach the unsupported-writer `else` branch,
which (with no module-global `export_type` bound) raises a `NameError` for
the unbound name `export_type`. -/
theorem gltf_reaches_else_branch :
    formatWriter "gltf" = some Writer.vtkGLTFExporter ∧
    (export_segmentation none ["data", "s001", "segmentations", "liver.nii.gz"]
        ["exp", "out"] Writer.vtkGLTFExporter engOneSegment).result
      = Except.error (PyErr.nameError "export_type") := by
  constructor
  · decide
  · decide

/-- C10 amended: the `else` branch of the per-segment dispatch is unreachable
for the OBJ, STL and PLY writers (the exporter returns normally for those),
but the GLTF writer reaches it on the first segment with a retrievable closed
surface; the branch raises via a reference to `export_type`, which is not
bound in the scope of `export_segmentation`, so it raises `gltfRaise`: a
`NameError` when no module-global `export_type` exists, and otherwise a
`ValueError` naming the global value rather than anything derived from the
actual writer. -/
theorem else_branch_reachability (gET : Option String) (fp sp : Path)
    (eng : SegEngine) (hc : eng.createClosedSurfaceOK = true)
    (hn : 0 < eng.nSegments) (hs : eng.getClosedSurfaceOK 0 = true) :
    (∀ w, w ≠ Writer.vtkGLTFExporter →
        (export_segmentation gET fp sp w eng).result = Except.ok (engineStatus eng)) ∧
    (export_segmentation gET fp sp Writer.vtkGLTFExporter eng).result
        = Except.error (gltfRaise gET) := by
  constructor
  · intro w hw
    exact export_segmentation_result_ok gET fp sp w eng hw
  · obtain ⟨m, hm⟩ : ∃ m, eng.nSegments = m + 1 := ⟨eng.nSegments - 1, by omega⟩
    have hn0 : ¬ eng.nSegments = 0 := by omega
    have he := exportLoop_gltf_err gET eng (parents1Name fp) sp hs m
    rw [← hm] at he
    simp [export_segmentation, hc, hn0, he]

/-- C10 amended witness. -/
theorem else_branch_reachability_witness :
    (∀ w, w ≠ Writer.vtkGLTFExporter →
        (export_segmentation (some "gltf") ["data", "s001", "segmentations", "liver.nii.gz"]
            ["exp", "out"] w engOneSegment).result = Except.ok (engineStatus engOneSegment)) ∧
    (export_segmentation (some "gltf") ["data", "s001", "segmentations", "liver.nii.gz"]
        ["exp", "out"] Writer.vtkGLTFExporter engOneSegment).result
        = Except.error (gltfRaise (some "gltf")) :=
  else_branch_reachability (some "gltf")
    ["data", "s001", "segmentations", "liver.nii.gz"] ["exp", "out"]
    engOneSegment (by decide) (by decide) (by decide)

/-- C3 counterexample: a case not in the skip-list, whose segmentation file
exists and yields two segments of which the first has a retrievable closed
surface (so at least one closed-surface segment): the per-patient exporter
returns status `2`, which is recorded, but only one mesh file is written,
because the second segment's closed surface is not retrievable and the loop
silently skips it while still counting it in the returned status. -/
theorem stl_write_count_undercounts :
    (main none envTwoSeg ["data"] ["exp"] "liver" "stl" [] false).entries
        = [Entry.exported "s001" 2] ∧
    (main none envTwoSeg ["data"] ["exp"] "liver" "stl" [] false).writes.length = 1 := by
  constructor
  · decide
  · decide

/-- C3 amended: for every case whose segmentation yields at least one segment
after successful closed-surface generation, and ALL of whose segments have
retrievable closed surfaces, the number of writer `Write()` calls (one mesh
file each for STL/PLY, one mesh+material bundle each for OBJ) equals the
status value returned by the per-patient exporter, namely the segment count;
when some segment's closed surface is not retrievable the write count falls
short of the returned status, and the GLTF exporter raises instead of
writing. -/
theorem export_write_count_matches_status (gET : Option String) (fp sp : Path)
    (w : Writer) (eng : SegEngine) (hw : w ≠ Writer.vtkGLTFExporter)
    (hc : eng.createClosedSurfaceOK = true) (hn : 0 < eng.nSegments)
    (hs : ∀ i, i < eng.nSegments → eng.getClosedSurfaceOK i = true) :
    (export_segmentation gET fp sp w eng).result = Except.ok (eng.nSegments : Int) ∧
    (export_segmentation gET fp sp w eng).writes.length = eng.nSegments := by
  have hn0 : ¬ eng.nSegments = 0 := by omega
  have he := exportLoop_err_none gET w eng (parents1Name fp) sp hw eng.nSegments
  have hl := exportLoop_writes_length gET w eng (parents1Name fp) sp hw eng.nSegments hs
  constructor
  · rw [export_segmentation_result_ok gET fp sp w eng hw]
    simp [engineStatus, hc]
  · simp [export_segmentation, hc, hn0, he, hl]

/-- C3 amended witness. -/
theorem export_write_count_matches_status_witness :
    (export_segmentation none ["data", "s001", "segmentations", "liver.nii.gz"]
        ["exp", "out"] Writer.vtkSTLWriter engOneSegment).result
      = Except.ok ((engOneSegment.nSegments : Int)) ∧
    (export_segmentation none ["data", "s001", "segmentations", "liver.nii.gz"]
        ["exp", "out"] Writer.vtkSTLWriter engOneSegment).writes.length
      = engOneSegment.nSegments :=
  export_write_count_matches_status none
    ["data", "s001", "segmentations", "liver.nii.gz"] ["exp", "out"]
    Writer.vtkSTLWriter engOneSegment (by decide) (by decide) (by decide)
    (fun i _ => by simp [engOneSegment])

/-- A case found in the skip-list: the loop body removes it from the
skip-list, appends the skip record, and falls through to the next patient,
touching nothing else. -/
theorem caseStep_skip (gET : Option String) (env : DatasetEnv) (dp sp : Path)
    (sel : String) (w : Writer) (dbg : Bool) (pid : String) (st : LoopState)
    (h : pid ∈ st.skip) :
    caseStep gET env dp sp sel w dbg pid st = StepOut.toNext
      { st with skip := st.skip.erase pid,
                entries := st.entries ++ [Entry.skipped pid] } := by
  simp [caseStep, h]

/-- C5: for a case id present in the skip-list, the loop body records exactly
the skip entry (whose tabular form is `(patient_id, -2)`), leaves the
invocation and write traces and the counter untouched (the per-patient
exporter is never invoked and no mesh file is produced for that case), and
removes the id from the skip-list exactly once (its multiplicity drops by
exactly one). -/
theorem skip_case_records_minus_two (gET : Option String) (env : DatasetEnv)
    (dp sp : Path) (sel : String) (w : Writer) (dbg : Bool) (pid : String)
    (st : LoopState) (h : pid ∈ st.skip) :
    caseStep gET env dp sp sel w dbg pid st = StepOut.toNext
      { st with skip := st.skip.erase pid,
                entries := st.entries ++ [Entry.skipped pid] } ∧
    pandasRow (Entry.skipped pid) = (pid, -2) ∧
    logLine (Entry.skipped pid) = pid ++ " is skipped\n" ∧
    st.skip.count pid = (st.skip.erase pid).count pid + 1 := by
  refine ⟨caseStep_skip gET env dp sp sel w dbg pid st h, rfl, rfl, ?_⟩
  have h1 := List.count_erase_self pid st.skip
  have h2 : 0 < st.skip.count pid := List.count_pos_iff.mpr h
  omega

/-- C5 witness. -/
theorem skip_case_records_minus_two_witness :
    caseStep none envTwoCases ["data"] ["exp", "out"] "liver" Writer.vtkSTLWriter false
        "s003" ⟨["s003"], [], [], [], 0⟩ = StepOut.toNext
      { skip := (["s003"] : List String).erase "s003",
        entries := ([] : List Entry) ++ [Entry.skipped "s003"],
        invocations := [], writes := [], count := 0 } ∧
    pandasRow (Entry.skipped "s003") = ("s003", -2) ∧
    logLine (Entry.skipped "s003") = "s003" ++ " is skipped\n" ∧
    (["s003"] : List String).count "s003"
        = ((["s003"] : List String).erase "s003").count "s003" + 1 :=
  skip_case_records_minus_two none envTwoCases ["data"] ["exp", "out"] "liver"
    Writer.vtkSTLWriter false "s003" ⟨["s003"], [], [], [], 0⟩ (by decide)

/-- C2: for a case not in the skip-list whose expected segmentation file
(`data_path/<pid>/segmentations/<label>.nii.gz`) does not exist, the loop
body records the "no segmentation" note AND still invokes the per-patient
exporter on that nonexistent path (the invocation trace grows by exactly that
path), rather than continuing to the next case. -/
theorem missing_file_still_invokes_exporter (gET : Option String)
    (env : DatasetEnv) (dp sp : Path) (sel : String) (w : Writer) (dbg : Bool)
    (pid : String) (st : LoopState)
    (hskip : pid ∉ st.skip) (hmiss : env.segExists pid = false) :
    (caseStep gET env dp sp sel w dbg pid st).state.invocations
        = st.invocations ++ [dp ++ [pid, "segmentations", sel ++ ".nii.gz"]] ∧
    ∃ tail, (caseStep gET env dp sp sel w dbg pid st).state.entries
        = st.entries ++ Entry.noSeg pid :: tail := by
  simp only [caseStep, hskip, hmiss]
  cases hres : (export_segmentation gET (dp ++ [pid, "segmentations", sel ++ ".nii.gz"])
      sp w (env.engine pid)).result with
  | error e => simp [hres, StepOut.state]
  | ok status =>
    by_cases hbrk : (dbg && decide (st.count + 1 > 10)) = true
    · simp [hres, hbrk, StepOut.state]
    · simp [hres, hbrk, StepOut.state]

/-- C2 witness. -/
theorem missing_file_still_invokes_exporter_witness :
    (caseStep none envMissing ["data"] ["exp", "out"] "liver" Writer.vtkSTLWriter false
        "s002" ⟨[], [], [], [], 0⟩).state.invocations
        = ([] : List Path) ++ [["data"] ++ ["s002", "segmentations", "liver" ++ ".nii.gz"]] ∧
    ∃ tail, (caseStep none envMissing ["data"] ["exp", "out"] "liver" Writer.vtkSTLWriter
        false "s002" ⟨[], [], [], [], 0⟩).state.entries
        = ([] : List Entry) ++ Entry.noSeg "s002" :: tail :=
  missing_file_still_invokes_exporter none envMissing ["data"] ["exp", "out"] "liver"
    Writer.vtkSTLWriter false "s002" ⟨[], [], [], [], 0⟩ (by decide) (by decide)

/-- A case not in the skip-list whose export call raises: the loop body
aborts the batch, after recording the possible missing-file note and the
invocation, with the counter untouched. -/
theorem caseStep_not_skip_error (gET : Option String) (env : DatasetEnv)
    (dp sp : Path) (sel : String) (w : Writer) (dbg : Bool) (pid : String)
    (st : LoopState) (e : PyErr) (hskip : pid ∉ st.skip)
    (hres : (export_segmentation gET (dp ++ [pid, "segmentations", sel ++ ".nii.gz"])
        sp w (env.engine pid)).result = Except.error e) :
    caseStep gET env dp sp sel w dbg pid st = StepOut.raised
      { skip := st.skip
        entries := st.entries ++ (if env.segExists pid then [] else [Entry.noSeg pid])
        invocations := st.invocations ++ [dp ++ [pid, "segmentations", sel ++ ".nii.gz"]]
        writes := st.writes ++ (export_segmentation gET
            (dp ++ [pid, "segmentations", sel ++ ".nii.gz"]) sp w (env.engine pid)).writes
        count := st.count } e := by
  simp [caseStep, hskip, hres]

/-- A case not in the skip-list whose export call returns a status: the loop
body records the possible missing-file note, the invocation, the writes and
the status record, increments the counter, and either breaks (debug cap) or
falls through. -/
theorem caseStep_not_skip_ok (gET : Option String) (env : DatasetEnv)
    (dp sp : Path) (sel : String) (w : Writer) (dbg : Bool) (pid : String)
    (st : LoopState) (status : Int) (hskip : pid ∉ st.skip)
    (hres : (export_segmentation gET (dp ++ [pid, "segmentations", sel ++ ".nii.gz"])
        sp w (env.engine pid)).result = Except.ok status) :
    caseStep gET env dp sp sel w dbg pid st =
      (if dbg && decide (st.count + 1 > 10) then StepOut.brk else StepOut.toNext)
      { skip := st.skip
        entries := st.entries ++ (if env.segExists pid then [] else [Entry.noSeg pid])
            ++ [Entry.exported pid status]
        invocations := st.invocations ++ [dp ++ [pid, "segmentations", sel ++ ".nii.gz"]]
        writes := st.writes ++ (export_segmentation gET
            (dp ++ [pid, "segmentations", sel ++ ".nii.gz"]) sp w (env.engine pid)).writes
        count := st.count + 1 } := by
  by_cases hbrk : (dbg && decide (st.count + 1 > 10)) = true
  · simp [caseStep, hskip, hres, hbrk]
  · simp [caseStep, hskip, hres, hbrk]

/-- Whenever the batch loop finishes without an uncaught exception, the
processed-case counter equals the number of exporter invocations (given that
it did on entry). -/
theorem mainLoop_invocations_eq_count (gET : Option String) (env : DatasetEnv)
    (dp sp : Path) (sel : String) (w : Writer) (dbg : Bool) :
    ∀ (ids : List String) (st : LoopState),
      st.invocations.length = st.count →
      (mainLoop gET env dp sp sel w dbg ids st).2 = none →
      (mainLoop gET env dp sp sel w dbg ids st).1.invocations.length
          = (mainLoop gET env dp sp sel w dbg ids st).1.count := by
  intro ids
  induction ids with
  | nil => intro st h _; simpa [mainLoop] using h
  | cons pid rest ih =>
    intro st hlen herr
    by_cases hskip : pid ∈ st.skip
    · rw [mainLoop, caseStep_skip gET env dp sp sel w dbg pid st hskip] at herr ⊢
      exact ih _ (by simpa using hlen) herr
    · cases hres : (export_segmentation gET (dp ++ [pid, "segmentations", sel ++ ".nii.gz"])
          sp w (env.engine pid)).result with
      | error e =>
        rw [mainLoop,
          caseStep_not_skip_error gET env dp sp sel w dbg pid st e hskip hres] at herr
        simp at herr
      | ok status =>
        rw [mainLoop,
          caseStep_not_skip_ok gET env dp sp sel w dbg pid st status hskip hres] at herr ⊢
        by_cases hbrk : (dbg && decide (st.count + 1 > 10)) = true
        · simp only [hbrk, if_true] at herr ⊢
          simp [hlen]
        · rw [Bool.not_eq_true] at hbrk
          simp only [hbrk, if_false] at herr ⊢
          refine ih _ ?_ herr
          simp [hlen]

/-- Variant of `caseStep_not_skip_ok` when the debug cap does not fire: the
step falls through to the next patient. -/
theorem caseStep_not_skip_next (gET : Option String) (env : DatasetEnv)
    (dp sp : Path) (sel : String) (w : Writer) (dbg : Bool) (pid : String)
    (st : LoopState) (status : Int) (hskip : pid ∉ st.skip)
    (hres : (export_segmentation gET (dp ++ [pid, "segmentations", sel ++ ".nii.gz"])
        sp w (env.engine pid)).result = Except.ok status)
    (hbrk : (dbg && decide (st.count + 1 > 10)) = false) :
    caseStep gET env dp sp sel w dbg pid st = StepOut.toNext
      { skip := st.skip
        entries := st.entries ++ (if env.segExists pid then [] else [Entry.noSeg pid])
            ++ [Entry.exported pid status]
        invocations := st.invocations ++ [dp ++ [pid, "segmentations", sel ++ ".nii.gz"]]
        writes := st.writes ++ (export_segmentation gET
            (dp ++ [pid, "segmentations", sel ++ ".nii.gz"]) sp w (env.engine pid)).writes
        count := st.count + 1 } := by
  rw [caseStep_not_skip_ok gET env dp sp sel w dbg pid st status hskip hres]
  simp [hbrk]

/-- Variant of `caseStep_not_skip_ok` when the debug cap fires: the step
leaves the loop. -/
theorem caseStep_not_skip_brk (gET : Option String) (env : DatasetEnv)
    (dp sp : Path) (sel : String) (w : Writer) (dbg : Bool) (pid : String)
    (st : LoopState) (status : Int) (hskip : pid ∉ st.skip)
    (hres : (export_segmentation gET (dp ++ [pid, "segmentations", sel ++ ".nii.gz"])
        sp w (env.engine pid)).result = Except.ok status)
    (hbrk : (dbg && decide (st.count + 1 > 10)) = true) :
    caseStep gET env dp sp sel w dbg pid st = StepOut.brk
      { skip := st.skip
        entries := st.entries ++ (if env.segExists pid then [] else [Entry.noSeg pid])
            ++ [Entry.exported pid status]
        invocations := st.invocations ++ [dp ++ [pid, "segmentations", sel ++ ".nii.gz"]]
        writes := st.writes ++ (export_segmentation gET
            (dp ++ [pid, "segmentations", sel ++ ".nii.gz"]) sp w (env.engine pid)).writes
        count := st.count + 1 } := by
  rw [caseStep_not_skip_ok gET env dp sp sel w dbg pid st status hskip hres]
  simp [hbrk]

/-- Unfolding the batch loop one case when the step falls through. -/
theorem mainLoop_cons_toNext (gET : Option String) (env : DatasetEnv)
    (dp sp : Path) (sel : String) (w : Writer) (dbg : Bool) (pid : String)
    (rest : List String) (st st' : LoopState)
    (h : caseStep gET env dp sp sel w dbg pid st = StepOut.toNext st') :
    mainLoop gET env dp sp sel w dbg (pid :: rest) st
      = mainLoop gET env dp sp sel w dbg rest st' := by
  rw [mainLoop, h]

/-- Unfolding the batch loop one case when the step breaks. -/
theorem mainLoop_cons_brk (gET : Option String) (env : DatasetEnv)
    (dp sp : Path) (sel : String) (w : Writer) (dbg : Bool) (pid : String)
    (rest : List String) (st st' : LoopState)
    (h : caseStep gET env dp sp sel w dbg pid st = StepOut.brk st') :
    mainLoop gET env dp sp sel w dbg (pid :: rest) st = (st', none) := by
  rw [mainLoop, h]

/-- Unfolding the batch loop one case when the step raises. -/
theorem mainLoop_cons_raised (gET : Option String) (env : DatasetEnv)
    (dp sp : Path) (sel : String) (w : Writer) (dbg : Bool) (pid : String)
    (rest : List String) (st st' : LoopState) (e : PyErr)
    (h : caseStep gET env dp sp sel w dbg pid st = StepOut.raised st' e) :
    mainLoop gET env dp sp sel w dbg (pid :: rest) st = (st', some e) := by
  rw [mainLoop, h]

/-- With `debug=True`, an empty skip-list and a non-raising writer, the batch
loop runs cases until the counter passes 10: the final counter is
`min (initial + number of cases) 11`, it equals the number of exporter
invocations, and no exception is raised. -/
theorem mainLoop_debug_cap (gET : Option String) (env : DatasetEnv) (dp sp : Path)
    (sel : String) (w : Writer) (hw : w ≠ Writer.vtkGLTFExporter) :
    ∀ (ids : List String) (st : LoopState),
      st.skip = [] → st.count ≤ 10 → st.invocations.length = st.count →
      (mainLoop gET env dp sp sel w true ids st).1.count = min (st.count + ids.length) 11 ∧
      (mainLoop gET env dp sp sel w true ids st).1.invocations.length
          = (mainLoop gET env dp sp sel w true ids st).1.count ∧
      (mainLoop gET env dp sp sel w true ids st).2 = none := by
  intro ids
  induction ids with
  | nil =>
    intro st hsk hc hl
    have h1 : mainLoop gET env dp sp sel w true [] st = (st, none) := rfl
    rw [h1]
    refine ⟨by simp; omega, hl, rfl⟩
  | cons pid rest ih =>
    intro st hsk hc hl
    have hskip : pid ∉ st.skip := by rw [hsk]; simp
    have hres := export_segmentation_result_ok gET
      (dp ++ [pid, "segmentations", sel ++ ".nii.gz"]) sp w (env.engine pid) hw
    by_cases hbrk : (true && decide (st.count + 1 > 10)) = true
    · have h11 : st.count = 10 := by
        simp only [Bool.true_and, decide_eq_true_eq] at hbrk
        omega
      rw [mainLoop_cons_brk gET env dp sp sel w true pid rest st _
        (caseStep_not_skip_brk gET env dp sp sel w true pid st
          (engineStatus (env.engine pid)) hskip hres hbrk)]
      refine ⟨?_, ?_, rfl⟩
      · simp [h11]
        omega
      · simp [hl]
    · rw [Bool.not_eq_true] at hbrk
      have hle : st.count + 1 ≤ 10 := by
        simp only [Bool.true_and, decide_eq_false_iff_not] at hbrk
        omega
      rw [mainLoop_cons_toNext gET env dp sp sel w true pid rest st _
        (caseStep_not_skip_next gET env dp sp sel w true pid st
          (engineStatus (env.engine pid)) hskip hres hbrk)]
      have hih := ih
        { skip := st.skip
          entries := st.entries ++ (if env.segExists pid then [] else [Entry.noSeg pid])
              ++ [Entry.exported pid (engineStatus (env.engine pid))]
          invocations := st.invocations ++ [dp ++ [pid, "segmentations", sel ++ ".nii.gz"]]
          writes := st.writes ++ (export_segmentation gET
              (dp ++ [pid, "segmentations", sel ++ ".nii.gz"]) sp w (env.engine pid)).writes
          count := st.count + 1 } hsk hle (by simp [hl])
      refine ⟨?_, hih.2.1, hih.2.2⟩
      rw [hih.1]
      simp
      omega

/-- C4: with `debug=True` and at least 12 discoverable cases, none of them
skipped and the writer one the per-segment dispatch handles, the batch
processes exactly 11 cases (the counter printed at the end is 11, and the
per-patient exporter was invoked exactly 11 times) and then stops. -/
theorem debug_processes_exactly_eleven (gET : Option String) (env : DatasetEnv)
    (dp ep : Path) (sel et : String) (w : Writer)
    (hfw : formatWriter et = some w) (hw : w ≠ Writer.vtkGLTFExporter)
    (h12 : 12 ≤ (patientIds env).length) :
    (main gET env dp ep sel et [] true).count = 11 ∧
    (main gET env dp ep sel et [] true).invocations.length = 11 := by
  have h := mainLoop_debug_cap gET env dp
    (ep ++ [pathName dp ++ "__" ++ sel ++ "__" ++ strLower et]) sel w hw
    (patientIds env) ⟨[], [], [], [], 0⟩ rfl (by decide) rfl
  simp only [main, hfw]
  refine ⟨?_, ?_⟩
  · rw [h.1]
    change min (0 + (patientIds env).length) 11 = 11
    omega
  · rw [h.2.1, h.1]
    change min (0 + (patientIds env).length) 11 = 11
    omega

/-- C4 witness. -/
theorem debug_processes_exactly_eleven_witness :
    (main none envThirteen ["data"] ["exp"] "liver" "stl" [] true).count = 11 ∧
    (main none envThirteen ["data"] ["exp"] "liver" "stl" [] true).invocations.length = 11 :=
  debug_processes_exactly_eleven none envThirteen ["data"] ["exp"] "liver" "stl"
    Writer.vtkSTLWriter (by decide) (by decide) (by decide)

/-- C9: whenever the batch finishes without an uncaught exception, the final
processed-case counter (the "Exported N patients" number) equals the number
of per-patient exporter invocations; and a case hit by the skip-list leaves
both the counter and the invocation trace untouched while still receiving a
summary entry — so skipped cases do not count toward the debug cap and are
excluded from the final count. -/
theorem skip_cases_not_counted (gET : Option String) (env : DatasetEnv)
    (dp ep : Path) (sel et : String) (skip0 : List String) (dbg : Bool)
    (herr : (main gET env dp ep sel et skip0 dbg).err = none) :
    (main gET env dp ep sel et skip0 dbg).count
        = (main gET env dp ep sel et skip0 dbg).invocations.length ∧
    (∀ (w : Writer) (sp : Path) (pid : String) (st : LoopState), pid ∈ st.skip →
      (caseStep gET env dp sp sel w dbg pid st).state.count = st.count ∧
      (caseStep gET env dp sp sel w dbg pid st).state.invocations = st.invocations ∧
      (caseStep gET env dp sp sel w dbg pid st).state.entries
          = st.entries ++ [Entry.skipped pid]) := by
  constructor
  · cases hfw : formatWriter et with
    | none => simp [main, hfw] at herr
    | some w =>
      simp only [main, hfw] at herr ⊢
      exact (mainLoop_invocations_eq_count gET env dp
        (ep ++ [pathName dp ++ "__" ++ sel ++ "__" ++ strLower et]) sel w dbg
        (patientIds env) ⟨skip0, [], [], [], 0⟩ rfl herr).symm
  · intro w sp pid st h
    rw [caseStep_skip gET env dp sp sel w dbg pid st h]
    exact ⟨rfl, rfl, rfl⟩

/-- C9 witness. -/
theorem skip_cases_not_counted_witness :
    (main none envTwoCases ["data"] ["exp"] "liver" "stl" ["s003"] false).count
        = (main none envTwoCases ["data"] ["exp"] "liver" "stl" ["s003"] false).invocations.length ∧
    (∀ (w : Writer) (sp : Path) (pid : String) (st : LoopState), pid ∈ st.skip →
      (caseStep none envTwoCases ["data"] sp "liver" w false pid st).state.count = st.count ∧
      (caseStep none envTwoCases ["data"] sp "liver" w false pid st).state.invocations
          = st.invocations ∧
      (caseStep none envTwoCases ["data"] sp "liver" w false pid st).state.entries
          = st.entries ++ [Entry.skipped pid]) :=
  skip_cases_not_counted none envTwoCases ["data"] ["exp"] "liver" "stl" ["s003"] false
    (by decide)

/-- With a non-raising writer and distinct case ids, the summary entries the
batch loop appends are exactly the per-case record lists of
`caseRecordsSpec`, concatenated over a prefix of the cases (the whole list
unless the debug cap stops the loop), in iteration order. -/
theorem mainLoop_entries_spec (gET : Option String) (env : DatasetEnv) (dp sp : Path)
    (sel : String) (w : Writer) (dbg : Bool) (hw : w ≠ Writer.vtkGLTFExporter)
    (skip0 : List String) :
    ∀ (ids : List String) (st : LoopState), ids.Nodup →
      (∀ pid, pid ∈ ids → (pid ∈ st.skip ↔ pid ∈ skip0)) →
      ∃ k, (mainLoop gET env dp sp sel w dbg ids st).1.entries
          = st.entries ++ (ids.take k).flatMap
              (caseRecordsSpec env skip0 (fun q => engineStatus (env.engine q))) := by
  intro ids
  induction ids with
  | nil =>
    intro st _ _
    exact ⟨0, by simp [mainLoop]⟩
  | cons pid rest ih =>
    intro st hnd hinv
    have hpid_rest : pid ∉ rest := (List.nodup_cons.mp hnd).1
    have hnd_rest : rest.Nodup := (List.nodup_cons.mp hnd).2
    by_cases hskip : pid ∈ st.skip
    · have hpid0 : pid ∈ skip0 := (hinv pid (List.mem_cons_self pid rest)).mp hskip
      rw [mainLoop_cons_toNext gET env dp sp sel w dbg pid rest st _
        (caseStep_skip gET env dp sp sel w dbg pid st hskip)]
      have hinv' : ∀ q, q ∈ rest → (q ∈ st.skip.erase pid ↔ q ∈ skip0) := by
        intro q hq
        have hne : q ≠ pid := fun heq => hpid_rest (heq ▸ hq)
        rw [List.mem_erase_of_ne hne]
        exact hinv q (List.mem_cons_of_mem pid hq)
      obtain ⟨k, hk⟩ := ih
        { st with
          skip := st.skip.erase pid
          entries := st.entries ++ [Entry.skipped pid] } hnd_rest hinv'
      refine ⟨k + 1, ?_⟩
      rw [hk]
      simp [caseRecordsSpec, hpid0]
    · have hpid0 : pid ∉ skip0 := fun h0 =>
        hskip ((hinv pid (List.mem_cons_self pid rest)).mpr h0)
      have hres := export_segmentation_result_ok gET
        (dp ++ [pid, "segmentations", sel ++ ".nii.gz"]) sp w (env.engine pid) hw
      by_cases hbrk : (dbg && decide (st.count + 1 > 10)) = true
      · rw [mainLoop_cons_brk gET env dp sp sel w dbg pid rest st _
          (caseStep_not_skip_brk gET env dp sp sel w dbg pid st
            (engineStatus (env.engine pid)) hskip hres hbrk)]
        refine ⟨1, ?_⟩
        by_cases hseg : env.segExists pid <;>
          simp [caseRecordsSpec, hpid0, hseg]
      · rw [Bool.not_eq_true] at hbrk
        rw [mainLoop_cons_toNext gET env dp sp sel w dbg pid rest st _
          (caseStep_not_skip_next gET env dp sp sel w dbg pid st
            (engineStatus (env.engine pid)) hskip hres hbrk)]
        obtain ⟨k, hk⟩ := ih
          { skip := st.skip
            entries := st.entries ++ (if env.segExists pid then [] else [Entry.noSeg pid])
                ++ [Entry.exported pid (engineStatus (env.engine pid))]
            invocations := st.invocations ++ [dp ++ [pid, "segmentations", sel ++ ".nii.gz"]]
            writes := st.writes ++ (export_segmentation gET
                (dp ++ [pid, "segmentations", sel ++ ".nii.gz"]) sp w (env.engine pid)).writes
            count := st.count + 1 } hnd_rest
          (fun q hq => hinv q (List.mem_cons_of_mem pid hq))
        refine ⟨k + 1, ?_⟩
        rw [hk]
        by_cases hseg : env.segExists pid <;>
          simp [caseRecordsSpec, hpid0, hseg]

/-- C1 counterexample: a batch over one case `s002` whose segmentation file
is missing appends TWO records for that case — the missing-note record and
then the export-status record — not exactly one. -/
theorem missing_case_gets_two_records :
    (main none envMissing ["data"] ["exp"] "liver" "stl" [] false).entries
        = [Entry.noSeg "s002", Entry.exported "s002" (-1)] ∧
    ((main none envMissing ["data"] ["exp"] "liver" "stl" [] false).entries.filter
        (fun e => e.pid == "s002")).length = 2 :=
  ⟨by decide, by decide⟩

/-- C1 amended: for every case the batch driver processes, records are
appended to the summary artifact in discovery (sorted) order, grouped per
case: exactly one record for a skipped case and for a case whose segmentation
file exists, and exactly two records (the missing note, then the
export-status record) for a case whose segmentation file is missing — as laid
out by `caseRecordsSpec` over a prefix of the discovered cases (the whole
list unless the debug cap stops the batch early). -/
theorem records_in_discovery_order (gET : Option String) (env : DatasetEnv)
    (dp ep : Path) (sel et : String) (skip0 : List String) (dbg : Bool) (w : Writer)
    (hfw : formatWriter et = some w) (hw : w ≠ Writer.vtkGLTFExporter)
    (hnd : env.dirNames.Nodup) :
    ∃ k, (main gET env dp ep sel et skip0 dbg).entries
        = ((patientIds env).take k).flatMap
            (caseRecordsSpec env skip0 (fun q => engineStatus (env.engine q))) := by
  have hnd' : (patientIds env).Nodup := by
    unfold patientIds pySorted
    exact (List.perm_insertionSort (fun a b => strLe a b = true) env.dirNames).symm.nodup hnd
  obtain ⟨k, hk⟩ := mainLoop_entries_spec gET env dp
    (ep ++ [pathName dp ++ "__" ++ sel ++ "__" ++ strLower et]) sel w dbg hw skip0
    (patientIds env) ⟨skip0, [], [], [], 0⟩ hnd' (fun q _ => Iff.rfl)
  refine ⟨k, ?_⟩
  simp only [main, hfw]
  simpa using hk

/-- C1 amended witness. -/
theorem records_in_discovery_order_witness :
    ∃ k, (main none envMissing ["data"] ["exp"] "liver" "stl" ["zzz"] false).entries
        = ((patientIds envMissing).take k).flatMap
            (caseRecordsSpec envMissing ["zzz"] (fun q => engineStatus (envMissing.engine q))) :=
  records_in_discovery_order none envMissing ["data"] ["exp"] "liver" "stl" ["zzz"] false
    Writer.vtkSTLWriter (by decide) (by decide) (by decide)

/-- C6: the driver lowercases the export-format string and selects exactly
one of the four writer kinds; for every string not matching one of the four
case-insensitively, `main` raises the unsupported-format `ValueError` with no
destination directory created, no summary sink opened, no exporter invoked
and nothing written — it aborts before any filesystem I/O. -/
theorem format_dispatch_validates_before_io (gET : Option String) (env : DatasetEnv)
    (dp ep : Path) (sel : String) (skip0 : List String) (dbg : Bool) (s : String) :
    (strLower s = "obj" → formatWriter s = some Writer.vtkOBJExporter) ∧
    (strLower s = "stl" → formatWriter s = some Writer.vtkSTLWriter) ∧
    (strLower s = "ply" → formatWriter s = some Writer.vtkPLYWriter) ∧
    (strLower s = "gltf" → formatWriter s = some Writer.vtkGLTFExporter) ∧
    (formatWriter s = none ↔
      (strLower s ≠ "obj" ∧ strLower s ≠ "stl" ∧ strLower s ≠ "ply" ∧ strLower s ≠ "gltf")) ∧
    (formatWriter s = none →
      main gET env dp ep sel s skip0 dbg =
        { err := some (PyErr.valueError ("Export type " ++ strLower s ++ " is not supported"))
          entries := []
          invocations := []
          writes := []
          count := 0
          finalSkip := skip0
          dirCreated := none }) := by
  refine ⟨?_, ?_, ?_, ?_, ?_, ?_⟩
  · intro h; simp [formatWriter, h]
  · intro h; simp [formatWriter, h]
  · intro h; simp [formatWriter, h]
  · intro h; simp [formatWriter, h]
  · constructor
    · intro h
      refine ⟨?_, ?_, ?_, ?_⟩ <;> intro heq <;> simp [formatWriter, heq] at h
    · intro ⟨h1, h2, h3, h4⟩
      simp [formatWriter, h1, h2, h3, h4]
  · intro h
    simp [main, h]

/-- C6 witness. -/
theorem format_dispatch_validates_before_io_witness :
    main none envMissing ["data"] ["exp"] "liver" "tiff" [] false =
      { err := some (PyErr.valueError ("Export type " ++ strLower "tiff" ++ " is not supported"))
        entries := []
        invocations := []
        writes := []
        count := 0
        finalSkip := []
        dirCreated := none } ∧
    formatWriter "STL" = some Writer.vtkSTLWriter :=
  ⟨(format_dispatch_validates_before_io none envMissing ["data"] ["exp"] "liver" [] false
      "tiff").2.2.2.2.2 (by decide),
   (format_dispatch_validates_before_io none envMissing ["data"] ["exp"] "liver" [] false
      "STL").2.1 (by decide)⟩

end SlicerExport